import Mathlib

/-!
Shallow embedding of `src/invioce_service.py`: an invoice calculation engine
that validates an invoice, computes subtotal and fragile fee, looks up
country-specific shipping and tax, applies membership and coupon discounts,
clamps the total at zero and emits advisory warnings.

Monetary amounts (Python floats) are modelled as exact rationals `ℚ`;
Python dictionaries become string-keyed lookup functions returning `Option`,
with the `.get(key, default)` fallback made explicit; raising `ValueError`
becomes `Except.error`.
-/

/-- One purchased product line (dataclass `LineItem`). -/
structure LineItem where
  sku : String
  category : String
  unit_price : ℚ
  qty : Int
  fragile : Bool := false
deriving DecidableEq

/-- One customer order (dataclass `Invoice`). -/
structure Invoice where
  invoice_id : String
  customer_id : String
  country : String
  membership : String
  coupon : Option String
  items : List LineItem
deriving DecidableEq

namespace InvoiceService

/-- `InvoiceService.SHIPPING_RULES`: country-keyed step functions of subtotal. -/
def SHIPPING_RULES (country : String) : Option (ℚ → ℚ) :=
  if country = "TH" then some (fun subtotal => if subtotal < 500 then 60 else 0)
  else if country = "JP" then some (fun subtotal => if subtotal < 4000 then 600 else 0)
  else if country = "US" then
    some (fun subtotal => if subtotal < 100 then 15 else (if subtotal < 300 then 8 else 0))
  else if country = "DEFAULT" then some (fun subtotal => if subtotal < 200 then 25 else 0)
  else none

/-- `InvoiceService.TAX_RATE`: country-keyed tax rates. -/
def TAX_RATE (country : String) : Option ℚ :=
  if country = "TH" then some (7/100)
  else if country = "JP" then some (10/100)
  else if country = "US" then some (8/100)
  else if country = "DEFAULT" then some (5/100)
  else none

/-- `InvoiceService.MEMBERSHIP_DISCOUNT`: tier-keyed discount rates. -/
def MEMBERSHIP_DISCOUNT (membership : String) : Option ℚ :=
  if membership = "gold" then some (3/100)
  else if membership = "platinum" then some (5/100)
  else none

/-- `InvoiceService.COUPON_RATE`: coupon-code-keyed discount rates. -/
def COUPON_RATE (code : String) : Option ℚ :=
  if code = "WELCOME10" then some (10/100)
  else if code = "VIP20" then some (20/100)
  else if code = "STUDENT5" then some (5/100)
  else none

/-- `InvoiceService.VALID_CATEGORIES`. -/
def VALID_CATEGORIES : List String := ["book", "food", "electronics", "other"]

/-- Python `str.strip()`: remove leading and trailing whitespace. -/
def pyStrip (s : String) : String :=
  String.mk (((s.data.dropWhile Char.isWhitespace).reverse.dropWhile Char.isWhitespace).reverse)

/-- The problems `_validate` records for one line item, in source order. -/
def itemProblems (item : LineItem) : List String :=
  (if item.sku = "" then ["Item sku is missing"] else []) ++
  (if item.qty ≤ 0 then ["Invalid qty for " ++ item.sku] else []) ++
  (if item.unit_price < 0 then ["Invalid price for " ++ item.sku] else []) ++
  (if item.category ∈ VALID_CATEGORIES then [] else ["Unknown category for " ++ item.sku])

/-- The full problem list `_validate` accumulates before raising, in source order. -/
def validationProblems (inv : Invoice) : List String :=
  (if inv.invoice_id = "" then ["Missing invoice_id"] else []) ++
  (if inv.customer_id = "" then ["Missing customer_id"] else []) ++
  (if inv.items = [] then ["Invoice must contain items"] else []) ++
  inv.items.flatMap itemProblems

/-- `_calculate_subtotal`: `(subtotal, fragile_fee)`. -/
def calculateSubtotal (items : List LineItem) : ℚ × ℚ :=
  ((items.map (fun i => i.unit_price * (i.qty : ℚ))).sum,
   ((items.filter (fun i => i.fragile)).map (fun i => (5 : ℚ) * (i.qty : ℚ))).sum)

/-- `_calculate_shipping`: rule lookup with fallback to the DEFAULT rule. -/
def calculateShipping (country : String) (subtotal : ℚ) : ℚ :=
  ((SHIPPING_RULES country).getD ((SHIPPING_RULES "DEFAULT").getD (fun _ => 0))) subtotal

/-- `_calculate_discount`: membership tier or high-value fallback, then coupon. -/
def calculateDiscount (inv : Invoice) (subtotal : ℚ) : ℚ × List String :=
  let discount : ℚ :=
    match MEMBERSHIP_DISCOUNT inv.membership with
    | some r => subtotal * r
    | none => if subtotal > 3000 then 20 else 0
  match inv.coupon with
  | none => (discount, [])
  | some c =>
    if c = "" then (discount, [])
    else
      match COUPON_RATE (pyStrip c) with
      | some r => (discount + subtotal * r, [])
      | none => (discount, ["Unknown coupon"])

/-- `_calculate_tax`: rate lookup with fallback to the DEFAULT rate. -/
def calculateTax (country : String) (taxable_amount : ℚ) : ℚ :=
  taxable_amount * ((TAX_RATE country).getD ((TAX_RATE "DEFAULT").getD 0))

/-- `compute_total`: validation, then the fixed calculation pipeline. -/
def computeTotal (inv : Invoice) : Except String (ℚ × List String) :=
  match validationProblems inv with
  | p :: ps => Except.error (String.intercalate "; " (p :: ps))
  | [] =>
    let sf := calculateSubtotal inv.items
    let subtotal := sf.1
    let fragile_fee := sf.2
    let shipping := calculateShipping inv.country subtotal
    let dw := calculateDiscount inv subtotal
    let discount := dw.1
    let warnings := dw.2
    let tax := calculateTax inv.country (subtotal - discount)
    let total := subtotal + shipping + fragile_fee + tax - discount
    let clamped := if total < 0 then 0 else total
    let warnings2 :=
      if 10000 < subtotal ∧ MEMBERSHIP_DISCOUNT inv.membership = none
      then warnings ++ ["Consider membership upgrade"]
      else warnings
    Except.ok (clamped, warnings2)

/-- Subtotal of an invoice, as computed inside `compute_total`. -/
def subtotalOf (inv : Invoice) : ℚ := (calculateSubtotal inv.items).1

/-- Fragile fee of an invoice, as computed inside `compute_total`. -/
def fragileFeeOf (inv : Invoice) : ℚ := (calculateSubtotal inv.items).2

/-- Shipping fee of an invoice, as computed inside `compute_total`. -/
def shippingOf (inv : Invoice) : ℚ := calculateShipping inv.country (subtotalOf inv)

/-- Discount of an invoice, as computed inside `compute_total`. -/
def discountOf (inv : Invoice) : ℚ := (calculateDiscount inv (subtotalOf inv)).1

/-- Tax of an invoice, as computed inside `compute_total`. -/
def taxOf (inv : Invoice) : ℚ := calculateTax inv.country (subtotalOf inv - discountOf inv)

/-- The pre-clamp total `subtotal + shipping + fragile_fee + tax - discount`. -/
def rawTotal (inv : Invoice) : ℚ :=
  subtotalOf inv + shippingOf inv + fragileFeeOf inv + taxOf inv - discountOf inv

/-- Membership tier / high-value fallback component of the discount. -/
def membershipComponent (membership : String) (subtotal : ℚ) : ℚ :=
  match MEMBERSHIP_DISCOUNT membership with
  | some r => subtotal * r
  | none => if subtotal > 3000 then 20 else 0

/-- Coupon component of the discount. -/
def couponComponent (coupon : Option String) (subtotal : ℚ) : ℚ :=
  match coupon with
  | none => 0
  | some c =>
    if c = "" then 0
    else
      match COUPON_RATE (pyStrip c) with
      | some r => subtotal * r
      | none => 0

/-- Warnings produced by the coupon block of `_calculate_discount`. -/
def couponWarnings (coupon : Option String) : List String :=
  match coupon with
  | none => []
  | some c =>
    if c = "" then []
    else
      match COUPON_RATE (pyStrip c) with
      | some _ => []
      | none => ["Unknown coupon"]

theorem calculateDiscount_eq (inv : Invoice) (s : ℚ) :
    calculateDiscount inv s =
      (membershipComponent inv.membership s + couponComponent inv.coupon s,
       couponWarnings inv.coupon) := by
  unfold calculateDiscount membershipComponent couponComponent couponWarnings
  cases hc : inv.coupon with
  | none => simp
  | some c =>
    by_cases hce : c = ""
    · simp [hce]
    · simp only [hce, if_neg, ite_false]
      cases hr : COUPON_RATE (pyStrip c) <;> simp [hr]

theorem computeTotal_ok (inv : Invoice) (h : validationProblems inv = []) :
    computeTotal inv = Except.ok
      ((if rawTotal inv < 0 then 0 else rawTotal inv),
       couponWarnings inv.coupon ++
         (if 10000 < subtotalOf inv ∧ MEMBERSHIP_DISCOUNT inv.membership = none
          then ["Consider membership upgrade"] else [])) := by
  unfold computeTotal
  rw [h]
  simp only [rawTotal, subtotalOf, fragileFeeOf, shippingOf, discountOf, taxOf,
    calculateDiscount_eq]
  split_ifs <;> simp_all

theorem computeTotal_error (inv : Invoice) (h : validationProblems inv ≠ []) :
    computeTotal inv = Except.error (String.intercalate "; " (validationProblems inv)) := by
  unfold computeTotal
  cases hv : validationProblems inv with
  | nil => exact absurd hv h
  | cons p ps => simp

theorem valid_of_ok (inv : Invoice) (x : ℚ × List String)
    (h : computeTotal inv = Except.ok x) : validationProblems inv = [] := by
  cases hv : validationProblems inv with
  | nil => rfl
  | cons p ps =>
    rw [computeTotal_error inv (by simp [hv])] at h
    exact absurd h (by simp)

/-- The invoice of the end-to-end example in the spec: one fragile book,
unit price 100, quantity 2, shipped to TH, no membership, no coupon. -/
def exInvoiceTH : Invoice :=
  { invoice_id := "INV-1", customer_id := "CUST-1", country := "TH",
    membership := "", coupon := none,
    items := [{ sku := "A", category := "book", unit_price := 100, qty := 2, fragile := true }] }

theorem computeTotal_exInvoiceTH : computeTotal exInvoiceTH = Except.ok (284, []) := by
  rw [computeTotal_ok exInvoiceTH (by decide)]
  simp [rawTotal, subtotalOf, fragileFeeOf, shippingOf, discountOf, taxOf,
    calculateSubtotal, calculateShipping, SHIPPING_RULES, calculateDiscount,
    MEMBERSHIP_DISCOUNT, calculateTax, TAX_RATE, couponWarnings, exInvoiceTH]
  norm_num

/-- A valid invoice with subtotal 1000, no membership and the lower-case
coupon "vip20 " (trailing whitespace). -/
def couponInvoiceLower : Invoice :=
  { invoice_id := "INV-4", customer_id := "CUST-4", country := "TH",
    membership := "", coupon := some "vip20 ",
    items := [{ sku := "B", category := "book", unit_price := 1000, qty := 1, fragile := false }] }

/-- The same invoice with the upper-case coupon "VIP20 " (trailing whitespace). -/
def couponInvoiceUpper : Invoice := { couponInvoiceLower with coupon := some "VIP20 " }

/-- An invoice with membership "platinum", subtotal 4000 and no coupon. -/
def platinumInvoice : Invoice :=
  { invoice_id := "INV-5", customer_id := "CUST-5", country := "US",
    membership := "platinum", coupon := none,
    items := [{ sku := "P", category := "electronics", unit_price := 4000, qty := 1,
                fragile := false }] }

/-- A valid invoice with subtotal 20000, no membership and the unknown coupon
"XYZ": both warnings fire. -/
def bigInvoice : Invoice :=
  { invoice_id := "INV-8", customer_id := "CUST-8", country := "TH",
    membership := "", coupon := some "XYZ",
    items := [{ sku := "C", category := "food", unit_price := 20000, qty := 1,
                fragile := false }] }

/-- A valid invoice with membership "Gold" (wrong case) and subtotal 20000,
shipped to "th" (wrong case). -/
def goldCaseInvoice : Invoice :=
  { invoice_id := "INV-10", customer_id := "CUST-10", country := "th",
    membership := "Gold", coupon := none,
    items := [{ sku := "G", category := "food", unit_price := 20000, qty := 1,
                fragile := false }] }

/-- A line item violating every per-item validation rule at once. -/
def badItem : LineItem :=
  { sku := "", category := "junk", unit_price := -1, qty := 0, fragile := false }

/-- An invoice whose only item is `badItem`. -/
def badInvoice : Invoice :=
  { invoice_id := "INV-2", customer_id := "CUST-2", country := "TH",
    membership := "", coupon := none, items := [badItem] }

end InvoiceService

namespace InvoiceService

/-- C1: the end-to-end TH example: one fragile book at 100 × 2, country "TH",
no membership, no coupon. `compute_total` succeeds with total 284
(subtotal 200, fragile fee 10, shipping 60, discount 0, tax 14) and no warnings. -/
theorem end_to_end_example_TH : computeTotal exInvoiceTH = Except.ok (284, []) ∧
    subtotalOf exInvoiceTH = 200 ∧ fragileFeeOf exInvoiceTH = 10 ∧
    shippingOf exInvoiceTH = 60 ∧ discountOf exInvoiceTH = 0 ∧ taxOf exInvoiceTH = 14 := by
  refine ⟨computeTotal_exInvoiceTH, ?_, ?_, ?_, ?_, ?_⟩ <;>
    simp [subtotalOf, fragileFeeOf, shippingOf, discountOf, taxOf,
      calculateSubtotal, calculateShipping, SHIPPING_RULES, calculateDiscount,
      MEMBERSHIP_DISCOUNT, calculateTax, TAX_RATE, exInvoiceTH] <;>
    norm_num

/-- C2: every invoice accepted by validation yields a total that is at least 0,
and whenever the pre-clamp total `subtotal + shipping + fragile_fee + tax −
discount` is negative the returned total is exactly 0. -/
theorem total_nonneg_clamped (inv : Invoice) (t : ℚ) (w : List String)
    (h : computeTotal inv = Except.ok (t, w)) :
    0 ≤ t ∧ (rawTotal inv < 0 → t = 0) := by
  have hv := valid_of_ok inv (t, w) h
  rw [computeTotal_ok inv hv] at h
  have ht : t = if rawTotal inv < 0 then 0 else rawTotal inv := by
    simpa using ((Prod.mk.injEq _ _ _ _).mp (Except.ok.inj h)).1.symm
  rw [ht]
  split_ifs with hr
  · exact ⟨le_refl 0, fun _ => rfl⟩
  · exact ⟨le_of_not_lt hr, fun hc => absurd hc hr⟩

/-- C2 witness: the clamping theorem applied to the concrete TH example. -/
theorem total_nonneg_clamped_witness :
    0 ≤ (284 : ℚ) ∧ (rawTotal exInvoiceTH < 0 → (284 : ℚ) = 0) :=
  total_nonneg_clamped exInvoiceTH 284 [] computeTotal_exInvoiceTH

/-- C3: an invalid invoice fails with a single error joining every collected
defect with "; ", and every per-item defect (empty sku, qty ≤ 0, negative
unit price, unknown category) of every item is collected: no short-circuit. -/
theorem validation_exhaustive_joined (inv : Invoice) :
    (validationProblems inv ≠ [] →
      computeTotal inv = Except.error (String.intercalate "; " (validationProblems inv))) ∧
    (∀ item ∈ inv.items,
      (item.sku = "" → "Item sku is missing" ∈ validationProblems inv) ∧
      (item.qty ≤ 0 → "Invalid qty for " ++ item.sku ∈ validationProblems inv) ∧
      (item.unit_price < 0 → "Invalid price for " ++ item.sku ∈ validationProblems inv) ∧
      (item.category ∉ VALID_CATEGORIES →
        "Unknown category for " ++ item.sku ∈ validationProblems inv)) := by
  constructor
  · exact fun h => computeTotal_error inv h
  · intro item hitem
    have hmem : ∀ x, x ∈ itemProblems item → x ∈ validationProblems inv := by
      intro x hx
      unfold validationProblems
      exact List.mem_append.mpr (Or.inr (List.mem_flatMap.mpr ⟨item, hitem, hx⟩))
    refine ⟨?_, ?_, ?_, ?_⟩ <;> intro h <;> apply hmem <;> simp [itemProblems, h]

/-- C3 witness: the exhaustive-validation theorem applied to an invoice whose
single item violates all four per-item rules at once. -/
theorem validation_exhaustive_joined_witness :
    computeTotal badInvoice = Except.error
      "Item sku is missing; Invalid qty for ; Invalid price for ; Unknown category for " ∧
    "Invalid qty for " ++ badItem.sku ∈ validationProblems badInvoice ∧
    "Invalid price for " ++ badItem.sku ∈ validationProblems badInvoice ∧
    "Unknown category for " ++ badItem.sku ∈ validationProblems badInvoice := by
  refine ⟨?_, ?_, ?_, ?_⟩
  · rw [(validation_exhaustive_joined badInvoice).1 (by decide)]
    rfl
  · exact ((validation_exhaustive_joined badInvoice).2 badItem (by decide)).2.1 (by decide)
  · exact ((validation_exhaustive_joined badInvoice).2 badItem (by decide)).2.2.1 (by decide)
  · exact ((validation_exhaustive_joined badInvoice).2 badItem (by decide)).2.2.2 (by decide)

/-- C4 counterexample: with coupon "vip20 " on subtotal 1000 the discount is 0,
not 200, and the "Unknown coupon" warning is produced: the trimmed code
"vip20" fails the case-sensitive lookup against "VIP20". -/
theorem coupon_lowercase_counterexample :
    calculateDiscount couponInvoiceLower 1000 = (0, ["Unknown coupon"]) ∧
    computeTotal couponInvoiceLower = Except.ok (1070, ["Unknown coupon"]) := by
  constructor
  · decide
  · rw [computeTotal_ok couponInvoiceLower (by decide)]
    simp [rawTotal, subtotalOf, fragileFeeOf, shippingOf, discountOf, taxOf,
      calculateSubtotal, calculateShipping, SHIPPING_RULES, calculateDiscount,
      MEMBERSHIP_DISCOUNT, calculateTax, TAX_RATE, couponWarnings, COUPON_RATE,
      couponInvoiceLower, pyStrip]
    norm_num

/-- C4 amended: coupon whitespace is trimmed but the code lookup is
case-sensitive, so "VIP20 " (trailing whitespace) earns the 20% rate —
discount 1000 × 0.20 = 200 with no warning — while "vip20 " earns nothing
and produces the "Unknown coupon" warning. -/
theorem coupon_trim_case_sensitive :
    pyStrip "VIP20 " = "VIP20" ∧
    calculateDiscount couponInvoiceUpper 1000 = (200, []) ∧
    computeTotal couponInvoiceUpper = Except.ok (856, []) ∧
    calculateDiscount couponInvoiceLower 1000 = (0, ["Unknown coupon"]) := by
  have hstrip : pyStrip "VIP20 " = "VIP20" := by decide
  refine ⟨hstrip, ?_, ?_, by decide⟩
  · simp [calculateDiscount, couponInvoiceUpper, couponInvoiceLower, hstrip,
      COUPON_RATE, MEMBERSHIP_DISCOUNT]
    norm_num
  · rw [computeTotal_ok couponInvoiceUpper (by decide)]
    simp [rawTotal, subtotalOf, fragileFeeOf, shippingOf, discountOf, taxOf,
      calculateSubtotal, calculateShipping, SHIPPING_RULES, calculateDiscount,
      MEMBERSHIP_DISCOUNT, calculateTax, TAX_RATE, couponWarnings, COUPON_RATE,
      couponInvoiceUpper, couponInvoiceLower, hstrip]
    norm_num

/-- C5: when membership matches a tier ("gold" 3%, "platinum" 5%) the discount
is the tier percentage of subtotal plus the coupon component only — the flat
high-value bonus of 20 is never added, whatever the subtotal; in particular
platinum at subtotal 4000 with no coupon gives exactly 200. -/
theorem membership_tier_no_flat_bonus (inv : Invoice) (s r : ℚ) :
    MEMBERSHIP_DISCOUNT "gold" = some (3/100) ∧
    MEMBERSHIP_DISCOUNT "platinum" = some (5/100) ∧
    (MEMBERSHIP_DISCOUNT inv.membership = some r →
      (calculateDiscount inv s).1 = s * r + couponComponent inv.coupon s) ∧
    (inv.membership = "platinum" → inv.coupon = none →
      (calculateDiscount inv 4000).1 = 200) := by
  refine ⟨by simp [MEMBERSHIP_DISCOUNT], by simp [MEMBERSHIP_DISCOUNT], ?_, ?_⟩
  · intro h
    rw [calculateDiscount_eq]
    simp [membershipComponent, h]
  · intro hm hc
    rw [calculateDiscount_eq]
    simp [membershipComponent, couponComponent, hm, hc, MEMBERSHIP_DISCOUNT]
    norm_num

/-- C5 witness: the tier-discount theorem applied to the platinum invoice at
subtotal 4000. -/
theorem membership_tier_no_flat_bonus_witness :
    (calculateDiscount platinumInvoice 4000).1 =
      4000 * (5/100) + couponComponent platinumInvoice.coupon 4000 ∧
    (calculateDiscount platinumInvoice 4000).1 = 200 := by
  have h := membership_tier_no_flat_bonus platinumInvoice 4000 (5/100)
  exact ⟨h.2.2.1 (by simp [platinumInvoice, MEMBERSHIP_DISCOUNT]), h.2.2.2 rfl rfl⟩

/-- C6: for country "US" the shipping fee is the step function of subtotal:
15 below 100, 8 from 100 up to (but excluding) 300, and 0 from 300 on. -/
theorem us_shipping_step_function (s : ℚ) :
    (s < 100 → calculateShipping "US" s = 15) ∧
    (100 ≤ s → s < 300 → calculateShipping "US" s = 8) ∧
    (300 ≤ s → calculateShipping "US" s = 0) := by
  have hUS : calculateShipping "US" s =
      (if s < 100 then 15 else (if s < 300 then 8 else 0)) := by
    simp [calculateShipping, SHIPPING_RULES]
  refine ⟨fun h => ?_, fun h1 h2 => ?_, fun h => ?_⟩ <;> rw [hUS]
  · rw [if_pos h]
  · rw [if_neg (not_lt.mpr h1), if_pos h2]
  · rw [if_neg (not_lt.mpr (by linarith)), if_neg (not_lt.mpr h)]

/-- C6 witness: the US step function at the boundary subtotals 50, 100, 300. -/
theorem us_shipping_step_function_witness :
    calculateShipping "US" 50 = 15 ∧ calculateShipping "US" 100 = 8 ∧
    calculateShipping "US" 300 = 0 :=
  ⟨(us_shipping_step_function 50).1 (by norm_num),
   (us_shipping_step_function 100).2.1 (by norm_num) (by norm_num),
   (us_shipping_step_function 300).2.2 (by norm_num)⟩

theorem upgrade_not_in_couponWarnings (coupon : Option String) :
    "Consider membership upgrade" ∉ couponWarnings coupon := by
  cases coupon with
  | none => simp [couponWarnings]
  | some c =>
    simp only [couponWarnings]
    split_ifs
    · simp
    · cases hr : COUPON_RATE (pyStrip c) <;> simp [hr]

theorem computeTotal_bigInvoice : computeTotal bigInvoice =
    Except.ok (106893/5, ["Unknown coupon", "Consider membership upgrade"]) := by
  rw [computeTotal_ok bigInvoice (by decide)]
  simp [rawTotal, subtotalOf, fragileFeeOf, shippingOf, discountOf, taxOf,
    calculateSubtotal, calculateShipping, SHIPPING_RULES, calculateDiscount,
    MEMBERSHIP_DISCOUNT, calculateTax, TAX_RATE, couponWarnings, COUPON_RATE,
    bigInvoice, pyStrip]
  norm_num

theorem computeTotal_goldCaseInvoice : computeTotal goldCaseInvoice =
    Except.ok (20979, ["Consider membership upgrade"]) := by
  rw [computeTotal_ok goldCaseInvoice (by decide)]
  simp [rawTotal, subtotalOf, fragileFeeOf, shippingOf, discountOf, taxOf,
    calculateSubtotal, calculateShipping, SHIPPING_RULES, calculateDiscount,
    MEMBERSHIP_DISCOUNT, calculateTax, TAX_RATE, couponWarnings, goldCaseInvoice]
  norm_num

/-- C7: tax is the taxable amount times the country rate (TH 7%, JP 10%,
US 8%, any other country 5%), with no clamping of the taxable base: when the
subtotal is below the discount the tax is negative, and the pre-clamp total
carries that tax before the final zero clamp. -/
theorem tax_rate_table_and_negative_base (x s d : ℚ) (country : String)
    (inv : Invoice) (t : ℚ) (w : List String) :
    calculateTax "TH" x = x * (7/100) ∧
    calculateTax "JP" x = x * (10/100) ∧
    calculateTax "US" x = x * (8/100) ∧
    (country ≠ "TH" → country ≠ "JP" → country ≠ "US" →
      calculateTax country x = x * (5/100)) ∧
    (s < d → calculateTax country (s - d) < 0) ∧
    (computeTotal inv = Except.ok (t, w) →
      taxOf inv = calculateTax inv.country (subtotalOf inv - discountOf inv) ∧
      rawTotal inv =
        subtotalOf inv + shippingOf inv + fragileFeeOf inv + taxOf inv - discountOf inv ∧
      t = if rawTotal inv < 0 then 0 else rawTotal inv) := by
  refine ⟨by simp [calculateTax, TAX_RATE], by simp [calculateTax, TAX_RATE],
    by simp [calculateTax, TAX_RATE], ?_, ?_, ?_⟩
  · intro h1 h2 h3
    by_cases h4 : country = "DEFAULT" <;> simp [calculateTax, TAX_RATE, h1, h2, h3, h4]
  · intro hsd
    have hr : 0 < (TAX_RATE country).getD ((TAX_RATE "DEFAULT").getD 0) := by
      have hd : TAX_RATE "DEFAULT" = some (5/100) := by simp [TAX_RATE]
      rw [hd]
      unfold TAX_RATE
      split_ifs <;> norm_num
    exact mul_neg_of_neg_of_pos (by linarith) hr
  · intro h
    have hv := valid_of_ok inv (t, w) h
    rw [computeTotal_ok inv hv] at h
    refine ⟨rfl, rfl, ?_⟩
    simpa using ((Prod.mk.injEq _ _ _ _).mp (Except.ok.inj h)).1.symm

/-- C7 witness: the tax theorem at concrete rates, a concrete negative base,
and the concrete TH example invoice. -/
theorem tax_rate_table_and_negative_base_witness :
    calculateTax "TH" 200 = 200 * (7/100) ∧
    calculateTax "XX" 200 = 200 * (5/100) ∧
    calculateTax "XX" (100 - 200) < 0 ∧
    (284 : ℚ) = if rawTotal exInvoiceTH < 0 then 0 else rawTotal exInvoiceTH := by
  have h := tax_rate_table_and_negative_base 200 100 200 "XX" exInvoiceTH 284 []
  exact ⟨h.1, h.2.2.2.1 (by decide) (by decide) (by decide),
    h.2.2.2.2.1 (by norm_num), (h.2.2.2.2.2 computeTotal_exInvoiceTH).2.2⟩

/-- C8: the warnings of a successful call contain "Consider membership
upgrade" exactly when subtotal exceeds 10000 and membership is no recognized
tier, and the list is the coupon warnings followed by the upgrade warning, so
an "Unknown coupon" warning always precedes it. -/
theorem upgrade_warning_iff_ordered (inv : Invoice) (t : ℚ) (w : List String)
    (h : computeTotal inv = Except.ok (t, w)) :
    ("Consider membership upgrade" ∈ w ↔
      (10000 < subtotalOf inv ∧ MEMBERSHIP_DISCOUNT inv.membership = none)) ∧
    w = couponWarnings inv.coupon ++
      (if 10000 < subtotalOf inv ∧ MEMBERSHIP_DISCOUNT inv.membership = none
       then ["Consider membership upgrade"] else []) := by
  have hv := valid_of_ok inv (t, w) h
  rw [computeTotal_ok inv hv] at h
  have hw : w = couponWarnings inv.coupon ++
      (if 10000 < subtotalOf inv ∧ MEMBERSHIP_DISCOUNT inv.membership = none
       then ["Consider membership upgrade"] else []) := by
    simpa using ((Prod.mk.injEq _ _ _ _).mp (Except.ok.inj h)).2.symm
  have hncw := upgrade_not_in_couponWarnings inv.coupon
  refine ⟨?_, hw⟩
  rw [hw]
  constructor
  · intro hm
    rcases List.mem_append.mp hm with hcl | hcr
    · exact absurd hcl hncw
    · by_contra hcond
      rw [if_neg hcond] at hcr
      simp at hcr
  · intro hcond
    exact List.mem_append.mpr (Or.inr (by rw [if_pos hcond]; simp))

/-- C8 witness: the warning theorem applied to the invoice with subtotal
20000 and unknown coupon "XYZ", where both warnings appear in order. -/
theorem upgrade_warning_iff_ordered_witness :
    ("Consider membership upgrade" ∈ ["Unknown coupon", "Consider membership upgrade"] ↔
      (10000 < subtotalOf bigInvoice ∧ MEMBERSHIP_DISCOUNT bigInvoice.membership = none)) ∧
    ["Unknown coupon", "Consider membership upgrade"] = couponWarnings bigInvoice.coupon ++
      (if 10000 < subtotalOf bigInvoice ∧ MEMBERSHIP_DISCOUNT bigInvoice.membership = none
       then ["Consider membership upgrade"] else []) :=
  upgrade_warning_iff_ordered bigInvoice (106893/5) _ computeTotal_bigInvoice

/-- C9: a present but empty coupon behaves exactly like an absent coupon:
the discount and warnings are identical and so is the whole result. -/
theorem empty_coupon_equals_absent (inv : Invoice) (s : ℚ) :
    calculateDiscount { inv with coupon := some "" } s =
      calculateDiscount { inv with coupon := none } s ∧
    computeTotal { inv with coupon := some "" } =
      computeTotal { inv with coupon := none } := by
  cases inv
  exact ⟨rfl, rfl⟩

/-- C10: every rate-table lookup is case-sensitive: countries "th" and "us"
fall to the DEFAULT shipping rule and DEFAULT 5% tax rate, and membership
"Gold" is no tier — it gets the flat high-value bonus instead of a percentage
and is eligible for the membership-upgrade warning. -/
theorem case_sensitive_rate_lookups (s x : ℚ) (inv : Invoice) (t : ℚ) (w : List String) :
    calculateShipping "th" s = (if s < 200 then 25 else 0) ∧
    calculateShipping "us" s = (if s < 200 then 25 else 0) ∧
    calculateTax "th" x = x * (5/100) ∧
    calculateTax "us" x = x * (5/100) ∧
    MEMBERSHIP_DISCOUNT "Gold" = none ∧
    (inv.membership = "Gold" → inv.coupon = none → 3000 < s →
      (calculateDiscount inv s).1 = 20) ∧
    (computeTotal inv = Except.ok (t, w) → inv.membership = "Gold" →
      10000 < subtotalOf inv → "Consider membership upgrade" ∈ w) := by
  refine ⟨by simp [calculateShipping, SHIPPING_RULES],
    by simp [calculateShipping, SHIPPING_RULES],
    by simp [calculateTax, TAX_RATE], by simp [calculateTax, TAX_RATE],
    by simp [MEMBERSHIP_DISCOUNT], ?_, ?_⟩
  · intro hm hc hs
    rw [calculateDiscount_eq]
    simp [membershipComponent, couponComponent, hm, hc, MEMBERSHIP_DISCOUNT, hs]
  · intro h hm hsub
    have hv := valid_of_ok inv (t, w) h
    rw [computeTotal_ok inv hv] at h
    have hw : w = couponWarnings inv.coupon ++
        (if 10000 < subtotalOf inv ∧ MEMBERSHIP_DISCOUNT inv.membership = none
         then ["Consider membership upgrade"] else []) := by
      simpa using ((Prod.mk.injEq _ _ _ _).mp (Except.ok.inj h)).2.symm
    rw [hw]
    refine List.mem_append.mpr (Or.inr ?_)
    rw [if_pos ⟨hsub, by simp [hm, MEMBERSHIP_DISCOUNT]⟩]
    simp

/-- C10 witness: the case-sensitivity theorem at a concrete subtotal and the
concrete "Gold"/"th" invoice with subtotal 20000. -/
theorem case_sensitive_rate_lookups_witness :
    calculateShipping "th" 100 = (if (100 : ℚ) < 200 then 25 else 0) ∧
    (calculateDiscount goldCaseInvoice 4000).1 = 20 ∧
    "Consider membership upgrade" ∈ ["Consider membership upgrade"] := by
  have h1 := case_sensitive_rate_lookups 100 0 goldCaseInvoice 20979
    ["Consider membership upgrade"]
  have h2 := case_sensitive_rate_lookups 4000 0 goldCaseInvoice 20979
    ["Consider membership upgrade"]
  exact ⟨h1.1, h2.2.2.2.2.2.1 rfl rfl (by norm_num),
    h2.2.2.2.2.2.2 computeTotal_goldCaseInvoice rfl
      (by norm_num [subtotalOf, calculateSubtotal, goldCaseInvoice])⟩

end InvoiceService
